import Mathlib

/-!
Verification of the risk-profile core of `hyper-personalized-trading-strategies`.

The repository has two source files:
* `src/user_pro.py` — data model (enums, `RiskAssessment`, `UserProfile`); the
  file is truncated after the `UserProfile` field `risk_tolerance`, so the
  scorer, repository and service bodies are not in the sources and are
  modelled from the spec where needed (definitions marked `Modelled from the
  spec:`).
* `src/firebase_config.py` — the `FirebaseManager` singleton: credential
  resolution, Firestore client bootstrap and the connection self-test; this
  file is complete and is embedded directly.

Floats are embedded as rationals (`ℚ`); Python `int` as `ℤ`/`ℕ`; raising an
exception as returning `Except.error`; Firestore as explicit state records.
-/

instance {ε α : Type} [DecidableEq ε] [DecidableEq α] : DecidableEq (Except ε α) := fun x y =>
  match x, y with
  | .ok a, .ok b => if h : a = b then .isTrue (by rw [h]) else .isFalse (by simp [h])
  | .ok _, .error _ => .isFalse (by simp)
  | .error _, .ok _ => .isFalse (by simp)
  | .error e, .error f => if h : e = f then .isTrue (by rw [h]) else .isFalse (by simp [h])

/-- Risk tolerance classification (src/user_pro.py, `RiskToleranceLevel`,
values 1–4, ordered). -/
inductive RiskToleranceLevel where
  | CONSERVATIVE
  | MODERATE
  | AGGRESSIVE
  | SPECULATIVE
deriving DecidableEq, Repr

/-- Integer value of each level, as declared in the source enum. -/
def RiskToleranceLevel.value : RiskToleranceLevel → Nat
  | .CONSERVATIVE => 1
  | .MODERATE => 2
  | .AGGRESSIVE => 3
  | .SPECULATIVE => 4

/-- Investment goal categories (src/user_pro.py, `InvestmentGoal`). -/
inductive InvestmentGoal where
  | CAPITAL_PRESERVATION
  | INCOME_GENERATION
  | CAPITAL_GROWTH
  | SPECULATIVE_GAINS
deriving DecidableEq, Repr

/-- User trading experience levels (src/user_pro.py, `TradingExperience`). -/
inductive TradingExperience where
  | BEGINNER
  | INTERMEDIATE
  | ADVANCED
  | PROFESSIONAL
deriving DecidableEq, Repr

/-- Risk assessment metrics (src/user_pro.py, `RiskAssessment` dataclass).
Floats as `ℚ`, the Python `int` field as `ℤ`. -/
structure RiskAssessment where
  max_drawdown_tolerance : ℚ
  volatility_tolerance : ℚ
  loss_aversion_score : ℚ
  time_horizon_years : ℤ
  liquidity_needs : ℚ
deriving DecidableEq, Repr

/-- Errors raised by the scoring/service layer (spec §7: ValidationError,
NotFoundError). -/
inductive ServiceError where
  | validationError
  | notFoundError
deriving DecidableEq, Repr

/-- Modelled from the spec: the RiskScorer validation predicate (§3 data
model ranges; the scorer body is missing from the truncated
src/user_pro.py). True iff every field is within its declared range:
`max_drawdown_tolerance ∈ [0,100]`, `volatility_tolerance ≥ 0`,
`loss_aversion_score ∈ [0,1]`, `time_horizon_years ≥ 0`,
`liquidity_needs ≥ 0`. -/
def validAssessment (a : RiskAssessment) : Bool :=
  decide (0 ≤ a.max_drawdown_tolerance) && decide (a.max_drawdown_tolerance ≤ 100) &&
  decide (0 ≤ a.volatility_tolerance) &&
  decide (0 ≤ a.loss_aversion_score) && decide (a.loss_aversion_score ≤ 1) &&
  decide (0 ≤ a.time_horizon_years) &&
  decide (0 ≤ a.liquidity_needs)

/-- Modelled from the spec: drawdown component, `max_drawdown_tolerance / 100`
(§4.1; scorer body missing from src). -/
def drawdown_component (a : RiskAssessment) : ℚ :=
  a.max_drawdown_tolerance / 100

/-- Modelled from the spec: volatility component,
`min(volatility_tolerance / 100, 1.0)` (§4.1). -/
def volatility_component (a : RiskAssessment) : ℚ :=
  min (a.volatility_tolerance / 100) 1

/-- Modelled from the spec: loss-aversion component, `1 − loss_aversion_score`
(§4.1). -/
def loss_aversion_component (a : RiskAssessment) : ℚ :=
  1 - a.loss_aversion_score

/-- Modelled from the spec: horizon component,
`min(time_horizon_years / 30, 1.0)` (§4.1). -/
def horizon_component (a : RiskAssessment) : ℚ :=
  min ((a.time_horizon_years : ℚ) / 30) 1

/-- Modelled from the spec: the composite score, the equal-weight (0.25 each)
average of the four components; `liquidity_needs` contributes 0 when no
contextual data is supplied (§4.1). -/
def composite (a : RiskAssessment) : ℚ :=
  (drawdown_component a + volatility_component a +
    loss_aversion_component a + horizon_component a) / 4

/-- Modelled from the spec: the threshold table (§4.1), boundary values
resolving to the higher band. -/
def classify (c : ℚ) : RiskToleranceLevel :=
  if c < 1/4 then .CONSERVATIVE
  else if c < 1/2 then .MODERATE
  else if c < 3/4 then .AGGRESSIVE
  else .SPECULATIVE

/-- Modelled from the spec: `RiskScorer.score` (§4.1) — validates the
assessment (raising ValidationError for out-of-range input), otherwise
returns the composite and its classification. -/
def score (a : RiskAssessment) : Except ServiceError (ℚ × RiskToleranceLevel) :=
  if validAssessment a then
    .ok (composite a, classify (composite a))
  else
    .error .validationError

/-- The spec §8 first worked example:
`{max_drawdown_tolerance=10, volatility_tolerance=5, loss_aversion_score=0.9,
time_horizon_years=2, liquidity_needs=500}`. -/
def exampleConservative : RiskAssessment :=
  { max_drawdown_tolerance := 10
    volatility_tolerance := 5
    loss_aversion_score := 9/10
    time_horizon_years := 2
    liquidity_needs := 500 }

/-- The spec §8 second worked example:
`{max_drawdown_tolerance=80, volatility_tolerance=90, loss_aversion_score=0.1,
time_horizon_years=25, liquidity_needs=0}`. -/
def exampleSpeculative : RiskAssessment :=
  { max_drawdown_tolerance := 80
    volatility_tolerance := 90
    loss_aversion_score := 1/10
    time_horizon_years := 25
    liquidity_needs := 0 }

/-- Complete user profile for trading personalization (src/user_pro.py,
`UserProfile` dataclass; the source text breaks off inside this declaration,
the remaining fields follow the spec §3 / §6 record layout). Timestamps are
server-assigned and modelled as naturals. -/
structure UserProfile where
  user_id : String
  email : String
  risk_tolerance : RiskAssessment
  risk_level : RiskToleranceLevel
  investment_goal : InvestmentGoal
  trading_experience : TradingExperience
  created_at : Nat
  updated_at : Nat
deriving DecidableEq, Repr

/-- The Document Store collaborator's state restricted to the `users`
collection (spec §6): documents keyed by `user_id`, plus a server clock that
resolves server-timestamp sentinels at write time. -/
structure StoreState where
  users : List (String × UserProfile)
  clock : Nat
deriving DecidableEq, Repr

/-- `get(collection, id)` on the users collection: first binding wins. -/
def lookupUser : List (String × UserProfile) → String → Option UserProfile
  | [], _ => none
  | (k, p) :: rest, uid => if k = uid then some p else lookupUser rest uid

/-- `set(collection, id, fields, merge)` on the users collection: replace the
document under `uid`, or append it if absent. -/
def setUser : List (String × UserProfile) → String → UserProfile →
    List (String × UserProfile)
  | [], uid, p => [(uid, p)]
  | (k, q) :: rest, uid, p =>
      if k = uid then (k, p) :: rest else (k, q) :: setUser rest uid p

/-- Modelled from the spec: `ProfileService.get_profile` (§4.3, delegates to
the repository load; body missing from the truncated src/user_pro.py). -/
def get_profile (s : StoreState) (user_id : String) : Option UserProfile :=
  lookupUser s.users user_id

/-- Modelled from the spec: `ProfileService.create_profile` (§4.3; body
missing from the truncated src/user_pro.py). Validates the assessment via the
scorer (fail fast, no store write on validation error), builds the profile
with `created_at = updated_at =` server time, persists it, and returns the
stored aggregate. The generated UUID is passed in as `user_id`. -/
def create_profile (s : StoreState) (user_id email : String)
    (assessment : RiskAssessment) (goal : InvestmentGoal)
    (experience : TradingExperience) :
    Except ServiceError UserProfile × StoreState :=
  match score assessment with
  | .error e => (.error e, s)
  | .ok (_, level) =>
      let profile : UserProfile :=
        { user_id := user_id
          email := email
          risk_tolerance := assessment
          risk_level := level
          investment_goal := goal
          trading_experience := experience
          created_at := s.clock
          updated_at := s.clock }
      (.ok profile, { users := setUser s.users user_id profile, clock := s.clock + 1 })

/-- Modelled from the spec: `ProfileService.update_assessment` (§4.3; body
missing from the truncated src/user_pro.py). Loads the existing profile
(NotFound if absent, no write), recomputes the risk level from the new
assessment, refreshes `updated_at`, leaves the identity fields and
`created_at` untouched, persists the merge and returns the updated
aggregate. -/
def update_assessment (s : StoreState) (user_id : String)
    (new_assessment : RiskAssessment) :
    Except ServiceError UserProfile × StoreState :=
  match lookupUser s.users user_id with
  | none => (.error .notFoundError, s)
  | some old =>
      match score new_assessment with
      | .error e => (.error e, s)
      | .ok (_, level) =>
          let updated : UserProfile :=
            { old with
              risk_tolerance := new_assessment
              risk_level := level
              updated_at := s.clock }
          (.ok updated, { users := setUser s.users user_id updated, clock := s.clock + 1 })

/-- The process environment as consulted by
`FirebaseManager._initialize_firebase` (src/firebase_config.py lines 28-59):
the `GOOGLE_APPLICATION_CREDENTIALS` variable (absent, or present with a
value), the file-existence oracle `os.path.exists`, and whether
`FIREBASE_CONFIG` is set. -/
structure EnvState where
  google_application_credentials : Option String
  path_exists : String → Bool
  firebase_config_present : Bool

/-- The credential object built during initialization:
`credentials.Certificate(cred_path)` or `credentials.ApplicationDefault()`. -/
inductive Credential where
  | certificate (path : String)
  | applicationDefault
deriving DecidableEq, Repr

/-- The configuration error raised when no credential source is found
(the `ValueError` in src/firebase_config.py lines 42-45). -/
inductive ConfigError where
  | credentialsNotFound
deriving DecidableEq, Repr

/-- Python truthiness of `cred_path and os.path.exists(cred_path)`
(src/firebase_config.py line 34): the variable is set, non-empty, and the
file exists. -/
def credPathUsable (env : EnvState) : Bool :=
  match env.google_application_credentials with
  | none => false
  | some p => (p != "") && env.path_exists p

/-- Embedding of `FirebaseManager._initialize_firebase`
(src/firebase_config.py lines 28-59): use the certificate at
`GOOGLE_APPLICATION_CREDENTIALS` when that path is usable, otherwise fall
back to application-default credentials when `FIREBASE_CONFIG` is set,
otherwise raise. -/
def initialize_firebase (env : EnvState) : Except ConfigError Credential :=
  if credPathUsable env then
    .ok (.certificate (env.google_application_credentials.getD ""))
  else if env.firebase_config_present then
    .ok .applicationDefault
  else
    .error .credentialsNotFound

/-- An environment in which both configuration sources are present: a usable
credential file path and the ambient `FIREBASE_CONFIG` context. -/
def envBoth : EnvState :=
  { google_application_credentials := some "creds.json"
    path_exists := fun _ => true
    firebase_config_present := true }

/-- An environment with only the ambient default-credential context. -/
def envAmbientOnly : EnvState :=
  { google_application_credentials := none
    path_exists := fun _ => false
    firebase_config_present := true }

/-- Behavior oracle for the two Firestore calls made by `test_connection`:
whether `set` raises and whether `get` raises. -/
structure FsBehavior where
  set_raises : Bool
  get_raises : Bool
deriving DecidableEq, Repr

/-- A Firestore document-level operation attempted against the store. -/
inductive StoreOp where
  | setDoc (collection doc : String) (merge : Bool)
  | getDoc (collection doc : String)
deriving DecidableEq, Repr

/-- The Document Store state seen by the connection self-test: the
`timestamp` field of document `test` in collection `connection_tests`, and
the server clock resolving `SERVER_TIMESTAMP` sentinels. -/
structure FsState where
  test_doc_timestamp : Option Nat
  clock : Nat
deriving DecidableEq, Repr

/-- Embedding of `FirebaseManager.test_connection`
(src/firebase_config.py lines 68-79). It merge-writes
`{timestamp: SERVER_TIMESTAMP}` to `connection_tests/test`, then reads the
document back; any raise in either step is caught and downgraded to `false`.
Returns the boolean result, the resulting store state, and the list of
operations attempted, in order. -/
def test_connection (b : FsBehavior) (s : FsState) :
    Bool × FsState × List StoreOp :=
  if b.set_raises then
    (false, s, [StoreOp.setDoc "connection_tests" "test" true])
  else
    let s1 : FsState := { test_doc_timestamp := some s.clock, clock := s.clock + 1 }
    if b.get_raises then
      (false, s1, [StoreOp.setDoc "connection_tests" "test" true,
                   StoreOp.getDoc "connection_tests" "test"])
    else
      (true, s1, [StoreOp.setDoc "connection_tests" "test" true,
                  StoreOp.getDoc "connection_tests" "test"])

/-- The class-level state of the `FirebaseManager` singleton
(src/firebase_config.py lines 19-20): the `_instance` and `_db` slots
(object identities as naturals), a counter of completed `_initialize_firebase`
runs, and a supply of fresh object identities. -/
structure ManagerState where
  instance_id : Option Nat
  db_handle : Option Nat
  init_count : Nat
  next_id : Nat
deriving DecidableEq, Repr

/-- Embedding of `FirebaseManager.__new__` (src/firebase_config.py lines
22-26): when `_instance` is already set it is returned unchanged with no
initialization; otherwise a fresh instance is stored in `_instance` and
`_initialize_firebase` runs — on success the Firestore client handle is
stored in `_db`, on failure the exception propagates (with `_instance`
already assigned, as in the source). -/
def firebaseManagerNew (st : ManagerState) (env : EnvState) :
    Except ConfigError Nat × ManagerState :=
  match st.instance_id with
  | some i => (.ok i, st)
  | none =>
      let i := st.next_id
      let st1 : ManagerState := { st with instance_id := some i, next_id := st.next_id + 1 }
      match initialize_firebase env with
      | .error e => (.error e, st1)
      | .ok _ =>
          (.ok i, { st1 with db_handle := some i, init_count := st.init_count + 1 })

/-- An assessment with `loss_aversion_score` above its declared range. -/
def exampleInvalid : RiskAssessment :=
  { max_drawdown_tolerance := 10
    volatility_tolerance := 5
    loss_aversion_score := 3/2
    time_horizon_years := 2
    liquidity_needs := 0 }

/-- The empty Document Store. -/
def emptyStore : StoreState := { users := [], clock := 0 }

/-- A concrete stored profile used to exercise the service operations. -/
def profileAlice : UserProfile :=
  { user_id := "u1"
    email := "alice@example.com"
    risk_tolerance := exampleConservative
    risk_level := .CONSERVATIVE
    investment_goal := .CAPITAL_PRESERVATION
    trading_experience := .BEGINNER
    created_at := 0
    updated_at := 0 }

/-- A store holding exactly `profileAlice`, with server clock 7. -/
def storeWithAlice : StoreState := { users := [("u1", profileAlice)], clock := 7 }

/-- The class-level state before the first `FirebaseManager()` call. -/
def managerStart : ManagerState :=
  { instance_id := none, db_handle := none, init_count := 0, next_id := 0 }

/-! ## Helper lemmas -/

lemma validAssessment_exampleConservative : validAssessment exampleConservative = true := by
  simp [validAssessment, exampleConservative]
  norm_num

lemma composite_exampleConservative : composite exampleConservative = 19/240 := by
  rw [composite, drawdown_component, volatility_component, loss_aversion_component,
    horizon_component, exampleConservative]
  norm_num

lemma score_exampleConservative : score exampleConservative = .ok (19/240, .CONSERVATIVE) := by
  rw [score, if_pos validAssessment_exampleConservative, composite_exampleConservative, classify]
  norm_num

lemma validAssessment_exampleSpeculative : validAssessment exampleSpeculative = true := by
  simp [validAssessment, exampleSpeculative]
  norm_num

lemma composite_exampleSpeculative : composite exampleSpeculative = 103/120 := by
  rw [composite, drawdown_component, volatility_component, loss_aversion_component,
    horizon_component, exampleSpeculative]
  norm_num

lemma score_exampleSpeculative : score exampleSpeculative = .ok (103/120, .SPECULATIVE) := by
  rw [score, if_pos validAssessment_exampleSpeculative, composite_exampleSpeculative, classify]
  norm_num

lemma lookupUser_setUser_self (l : List (String × UserProfile)) (uid : String)
    (p : UserProfile) : lookupUser (setUser l uid p) uid = some p := by
  induction l with
  | nil => simp [setUser, lookupUser]
  | cons hd tl ih =>
      obtain ⟨k, q⟩ := hd
      by_cases hk : k = uid
      · simp [setUser, lookupUser, hk]
      · simp [setUser, lookupUser, hk, ih]

lemma validAssessment_bounds (a : RiskAssessment) (h : validAssessment a = true) :
    0 ≤ a.max_drawdown_tolerance ∧ a.max_drawdown_tolerance ≤ 100 ∧
    0 ≤ a.volatility_tolerance ∧
    0 ≤ a.loss_aversion_score ∧ a.loss_aversion_score ≤ 1 ∧
    0 ≤ a.time_horizon_years ∧
    0 ≤ a.liquidity_needs := by
  rw [validAssessment] at h
  simp only [Bool.and_eq_true, decide_eq_true_eq] at h
  obtain ⟨⟨⟨⟨⟨⟨h1, h2⟩, h3⟩, h4⟩, h5⟩, h6⟩, h7⟩ := h
  exact ⟨h1, h2, h3, h4, h5, h6, h7⟩

lemma composite_mem_unit (a : RiskAssessment) (h : validAssessment a = true) :
    0 ≤ composite a ∧ composite a ≤ 1 := by
  obtain ⟨h1, h2, h3, h4, h5, h6, h7⟩ := validAssessment_bounds a h
  have hdd0 : 0 ≤ drawdown_component a := by
    rw [drawdown_component]; exact div_nonneg h1 (by norm_num)
  have hdd1 : drawdown_component a ≤ 1 := by
    rw [drawdown_component]; rw [div_le_one (by norm_num)]; linarith
  have hvol0 : 0 ≤ volatility_component a := by
    rw [volatility_component]
    exact le_min (div_nonneg h3 (by norm_num)) zero_le_one
  have hvol1 : volatility_component a ≤ 1 := min_le_right _ _
  have hla0 : 0 ≤ loss_aversion_component a := by
    rw [loss_aversion_component]; linarith
  have hla1 : loss_aversion_component a ≤ 1 := by
    rw [loss_aversion_component]; linarith
  have hth : (0 : ℚ) ≤ (a.time_horizon_years : ℚ) := by exact_mod_cast h6
  have hhz0 : 0 ≤ horizon_component a := by
    rw [horizon_component]
    exact le_min (div_nonneg hth (by norm_num)) zero_le_one
  have hhz1 : horizon_component a ≤ 1 := min_le_right _ _
  rw [composite]
  constructor <;> linarith

/-! ## Claim theorems -/

/-- Claim C1: for every RiskAssessment whose fields are within their declared
ranges, `score` returns the composite equal to the equal-weight (0.25 each)
average of the four normalized components — `max_drawdown_tolerance/100`,
`min(volatility_tolerance/100, 1)`, `1 − loss_aversion_score`, and
`min(time_horizon_years/30, 1)` — with `liquidity_needs` contributing 0 when
no contextual data is supplied; and the input
`{max_drawdown_tolerance=10, volatility_tolerance=5, loss_aversion_score=0.9,
time_horizon_years=2, liquidity_needs=500}` yields composite
`19/240 ≈ 0.079` and level CONSERVATIVE. -/
theorem score_equal_weight_composite (a : RiskAssessment)
    (h : validAssessment a = true) :
    score a = .ok (
      (1/4) * (a.max_drawdown_tolerance / 100) +
      (1/4) * min (a.volatility_tolerance / 100) 1 +
      (1/4) * (1 - a.loss_aversion_score) +
      (1/4) * min ((a.time_horizon_years : ℚ) / 30) 1,
      classify ((1/4) * (a.max_drawdown_tolerance / 100) +
        (1/4) * min (a.volatility_tolerance / 100) 1 +
        (1/4) * (1 - a.loss_aversion_score) +
        (1/4) * min ((a.time_horizon_years : ℚ) / 30) 1)) ∧
    score exampleConservative = .ok (19/240, .CONSERVATIVE) ∧
    (19 : ℚ)/240 - 79/1000 < 1/1000 ∧ (79 : ℚ)/1000 - 19/240 < 1/1000 := by
  refine ⟨?_, score_exampleConservative, by norm_num, by norm_num⟩
  have hc : composite a =
      (1/4) * (a.max_drawdown_tolerance / 100) +
      (1/4) * min (a.volatility_tolerance / 100) 1 +
      (1/4) * (1 - a.loss_aversion_score) +
      (1/4) * min ((a.time_horizon_years : ℚ) / 30) 1 := by
    rw [composite, drawdown_component, volatility_component, loss_aversion_component,
      horizon_component]
    ring
  rw [score, if_pos h, hc]

/-- Claim C1 witness: the general statement applied to the spec's worked
example. -/
theorem score_equal_weight_composite_witness :
    score exampleConservative = .ok (19/240, RiskToleranceLevel.CONSERVATIVE) :=
  (score_equal_weight_composite exampleConservative
    validAssessment_exampleConservative).2.1

/-- Claim C2: for every valid RiskAssessment, `score` returns a composite in
`[0,1]` and a RiskToleranceLevel determined by the threshold table —
`[0,0.25)` CONSERVATIVE, `[0.25,0.5)` MODERATE, `[0.5,0.75)` AGGRESSIVE,
`[0.75,1]` SPECULATIVE — a composite exactly at a boundary falling into the
higher band. -/
theorem score_range_and_threshold_table (a : RiskAssessment)
    (h : validAssessment a = true) :
    ∃ c level, score a = .ok (c, level) ∧ 0 ≤ c ∧ c ≤ 1 ∧
      (c < 1/4 → level = RiskToleranceLevel.CONSERVATIVE) ∧
      (1/4 ≤ c → c < 1/2 → level = RiskToleranceLevel.MODERATE) ∧
      (1/2 ≤ c → c < 3/4 → level = RiskToleranceLevel.AGGRESSIVE) ∧
      (3/4 ≤ c → level = RiskToleranceLevel.SPECULATIVE) := by
  obtain ⟨hc0, hc1⟩ := composite_mem_unit a h
  refine ⟨composite a, classify (composite a), by rw [score, if_pos h], hc0, hc1,
    ?_, ?_, ?_, ?_⟩
  · intro hlt
    rw [classify, if_pos hlt]
  · intro hge hlt
    rw [classify, if_neg (not_lt.2 hge), if_pos hlt]
  · intro hge hlt
    rw [classify, if_neg (by linarith), if_neg (not_lt.2 hge), if_pos hlt]
  · intro hge
    rw [classify, if_neg (by linarith), if_neg (by linarith), if_neg (not_lt.2 hge)]

/-- Claim C2 witness: the general statement applied to the spec's second
worked example. -/
theorem score_range_and_threshold_table_witness :
    ∃ c level, score exampleSpeculative = .ok (c, level) ∧ 0 ≤ c ∧ c ≤ 1 ∧
      (c < 1/4 → level = RiskToleranceLevel.CONSERVATIVE) ∧
      (1/4 ≤ c → c < 1/2 → level = RiskToleranceLevel.MODERATE) ∧
      (1/2 ≤ c → c < 3/4 → level = RiskToleranceLevel.AGGRESSIVE) ∧
      (3/4 ≤ c → level = RiskToleranceLevel.SPECULATIVE) :=
  score_range_and_threshold_table exampleSpeculative validAssessment_exampleSpeculative

/-- Claim C3: for every RiskAssessment with any field outside its declared
range, `score` and `create_profile` fail with ValidationError, never return a
level, and leave the Document Store unchanged (no write). -/
theorem invalid_assessment_rejected (s : StoreState) (uid em : String)
    (g : InvestmentGoal) (t : TradingExperience) (a : RiskAssessment)
    (h : a.max_drawdown_tolerance < 0 ∨ 100 < a.max_drawdown_tolerance ∨
         a.volatility_tolerance < 0 ∨
         a.loss_aversion_score < 0 ∨ 1 < a.loss_aversion_score ∨
         a.time_horizon_years < 0 ∨
         a.liquidity_needs < 0) :
    score a = .error .validationError ∧
    create_profile s uid em a g t = (.error .validationError, s) := by
  have hv : validAssessment a = false := by
    cases hval : validAssessment a with
    | false => rfl
    | true =>
        exfalso
        obtain ⟨h1, h2, h3, h4, h5, h6, h7⟩ := validAssessment_bounds a hval
        rcases h with hx | hx | hx | hx | hx | hx | hx <;> linarith
  have hs : score a = .error .validationError := by
    rw [score, if_neg]
    simp [hv]
  exact ⟨hs, by simp [create_profile, hs]⟩

/-- Claim C3 witness: the general statement applied to an assessment whose
`loss_aversion_score` exceeds 1. -/
theorem invalid_assessment_rejected_witness :
    score exampleInvalid = .error .validationError ∧
    create_profile emptyStore "u1" "alice@example.com" exampleInvalid
      InvestmentGoal.CAPITAL_GROWTH TradingExperience.BEGINNER =
      (.error .validationError, emptyStore) :=
  invalid_assessment_rejected emptyStore "u1" "alice@example.com"
    InvestmentGoal.CAPITAL_GROWTH TradingExperience.BEGINNER exampleInvalid
    (Or.inr (Or.inr (Or.inr (Or.inr (Or.inl (by norm_num [exampleInvalid]))))))

/-- Claim C4: for every existing profile, `update_assessment` leaves `email`,
`investment_goal`, `trading_experience` and `created_at` of the stored
profile unchanged, and changes only `risk_tolerance`, `risk_level` and
`updated_at`. -/
theorem update_assessment_frame (s : StoreState) (uid : String)
    (a : RiskAssessment) (old : UserProfile)
    (hold : get_profile s uid = some old)
    (hv : validAssessment a = true) :
    ∃ p s2, update_assessment s uid a = (.ok p, s2) ∧
      p.email = old.email ∧
      p.investment_goal = old.investment_goal ∧
      p.trading_experience = old.trading_experience ∧
      p.created_at = old.created_at ∧
      p.user_id = old.user_id ∧
      p.risk_tolerance = a ∧
      p.risk_level = classify (composite a) ∧
      p.updated_at = s.clock ∧
      get_profile s2 uid = some p := by
  rw [get_profile] at hold
  refine ⟨{ old with
      risk_tolerance := a
      risk_level := classify (composite a)
      updated_at := s.clock },
    { users := setUser s.users uid ({ old with
        risk_tolerance := a
        risk_level := classify (composite a)
        updated_at := s.clock }), clock := s.clock + 1 },
    ?_, rfl, rfl, rfl, rfl, rfl, rfl, rfl, rfl, ?_⟩
  · rw [update_assessment, hold, score, if_pos hv]
  · rw [get_profile]
    exact lookupUser_setUser_self s.users uid _

/-- Claim C4 witness: the general statement applied to a store holding one
profile, updated with the spec's second worked example. -/
theorem update_assessment_frame_witness :
    ∃ p s2, update_assessment storeWithAlice "u1" exampleSpeculative = (.ok p, s2) ∧
      p.email = profileAlice.email ∧
      p.investment_goal = profileAlice.investment_goal ∧
      p.trading_experience = profileAlice.trading_experience ∧
      p.created_at = profileAlice.created_at ∧
      p.user_id = profileAlice.user_id ∧
      p.risk_tolerance = exampleSpeculative ∧
      p.risk_level = classify (composite exampleSpeculative) ∧
      p.updated_at = storeWithAlice.clock ∧
      get_profile s2 "u1" = some p :=
  update_assessment_frame storeWithAlice "u1" exampleSpeculative profileAlice
    (by simp [get_profile, storeWithAlice, lookupUser])
    validAssessment_exampleSpeculative

/-- Claim C5: for every `user_id` with no document in the store,
`update_assessment` fails with NotFoundError and performs no write — the
store state is returned unchanged. -/
theorem update_assessment_not_found (s : StoreState) (uid : String)
    (a : RiskAssessment) (h : get_profile s uid = none) :
    update_assessment s uid a = (.error .notFoundError, s) := by
  rw [get_profile] at h
  rw [update_assessment, h]

/-- Claim C5 witness: the general statement applied to the empty store. -/
theorem update_assessment_not_found_witness :
    update_assessment emptyStore "ghost" exampleConservative =
      (.error .notFoundError, emptyStore) :=
  update_assessment_not_found emptyStore "ghost" exampleConservative rfl

/-- Claim C6: for every valid input, `create_profile` followed by
`get_profile` on the returned `user_id` yields a profile equal to the created
one in all fields, with `updated_at` a server-assigned timestamp that is at
least `created_at` (here the creation timestamp itself). -/
theorem create_then_get_roundtrip (s : StoreState) (uid em : String)
    (a : RiskAssessment) (g : InvestmentGoal) (t : TradingExperience)
    (hv : validAssessment a = true) :
    ∃ p s2, create_profile s uid em a g t = (.ok p, s2) ∧
      get_profile s2 p.user_id = some p ∧
      p.created_at ≤ p.updated_at := by
  refine ⟨{ user_id := uid, email := em, risk_tolerance := a,
            risk_level := classify (composite a), investment_goal := g,
            trading_experience := t, created_at := s.clock, updated_at := s.clock },
    { users := setUser s.users uid { user_id := uid, email := em,
                                     risk_tolerance := a,
                                     risk_level := classify (composite a),
                                     investment_goal := g, trading_experience := t,
                                     created_at := s.clock, updated_at := s.clock },
      clock := s.clock + 1 },
    ?_, ?_, le_refl _⟩
  · rw [create_profile, score, if_pos hv]
  · rw [get_profile]
    exact lookupUser_setUser_self s.users uid _

/-- Claim C6 witness: the general statement applied to concrete inputs on the
empty store. -/
theorem create_then_get_roundtrip_witness :
    ∃ p s2, create_profile emptyStore "u2" "bob@example.com" exampleConservative
        InvestmentGoal.INCOME_GENERATION TradingExperience.INTERMEDIATE = (.ok p, s2) ∧
      get_profile s2 p.user_id = some p ∧
      p.created_at ≤ p.updated_at :=
  create_then_get_roundtrip emptyStore "u2" "bob@example.com" exampleConservative
    InvestmentGoal.INCOME_GENERATION TradingExperience.INTERMEDIATE
    validAssessment_exampleConservative

/-- Claim C7 counterexample: with BOTH configuration sources present — a
usable credential-file path and the ambient `FIREBASE_CONFIG` context —
initialization does not fail with a configuration error as the claim
requires; it succeeds, using the certificate from the file path. -/
theorem initialize_firebase_both_present_succeeds :
    credPathUsable envBoth = true ∧
    envBoth.firebase_config_present = true ∧
    initialize_firebase envBoth = .ok (.certificate "creds.json") := by
  refine ⟨?_, rfl, ?_⟩
  · simp [credPathUsable, envBoth]
  · simp [initialize_firebase, credPathUsable, envBoth]

/-- Claim C7 amended: initialization fails with the configuration error
exactly when NEITHER source is available; a usable credential-file path is
used whenever present (taking precedence even when the ambient context is
also present), and otherwise the ambient default-credential context is
used. -/
theorem initialize_firebase_sources (env : EnvState) :
    (initialize_firebase env = .error .credentialsNotFound ↔
      credPathUsable env = false ∧ env.firebase_config_present = false) ∧
    (credPathUsable env = true →
      initialize_firebase env =
        .ok (.certificate (env.google_application_credentials.getD ""))) ∧
    (credPathUsable env = false → env.firebase_config_present = true →
      initialize_firebase env = .ok .applicationDefault) := by
  rw [initialize_firebase]
  cases hc : credPathUsable env <;>
    cases hf : env.firebase_config_present <;>
      simp [hc, hf]

/-- Claim C7 amended witness: with only the ambient context, initialization
succeeds with application-default credentials. -/
theorem initialize_firebase_sources_witness :
    initialize_firebase envAmbientOnly = .ok .applicationDefault :=
  (initialize_firebase_sources envAmbientOnly).2.2 rfl rfl

/-- Claim C8: for every store behavior, `test_connection` never propagates an
exception — it is a total boolean-valued function, returning true exactly
when the diagnostic write and the read-back both succeed, and false when
either step raises. -/
theorem test_connection_total_boolean (b : FsBehavior) (s : FsState) :
    ((test_connection b s).1 = true ↔ b.set_raises = false ∧ b.get_raises = false) := by
  rw [test_connection]
  cases hs : b.set_raises <;> cases hg : b.get_raises <;> simp

/-- Claim C9: after a first successful construction of the manager, a
subsequent construction (under any environment) returns the same instance
and the very same class state — same `_db` handle, no re-initialization. -/
theorem firebaseManagerNew_idempotent (st st1 : ManagerState)
    (env env2 : EnvState) (i : Nat)
    (h : firebaseManagerNew st env = (.ok i, st1)) :
    firebaseManagerNew st1 env2 = (.ok i, st1) := by
  have hinst : st1.instance_id = some i := by
    rw [firebaseManagerNew] at h
    cases hsi : st.instance_id with
    | some j =>
        rw [hsi] at h
        obtain ⟨hj, hst⟩ := Prod.mk.injEq .. ▸ h
        obtain rfl : j = i := by
          cases hj
          rfl
        rw [← hst, hsi]
    | none =>
        rw [hsi] at h
        cases he : initialize_firebase env with
        | error e =>
            rw [he] at h
            exact absurd (congrArg Prod.fst h) (by simp)
        | ok c =>
            rw [he] at h
            obtain ⟨hj, hst⟩ := Prod.mk.injEq .. ▸ h
            rw [← hst]
            cases hj
            rfl
  rw [firebaseManagerNew, hinst]

/-- Claim C9 witness: a concrete first construction from the blank class
state, then the theorem applied to it. -/
theorem firebaseManagerNew_idempotent_witness :
    firebaseManagerNew ⟨some 0, some 0, 1, 1⟩ envAmbientOnly =
      (.ok 0, ⟨some 0, some 0, 1, 1⟩) :=
  firebaseManagerNew_idempotent managerStart ⟨some 0, some 0, 1, 1⟩
    envAmbientOnly envAmbientOnly 0 rfl

/-- Claim C10: every call to `test_connection` attempts, as its first store
operation and before any read, the merge write of the server-timestamp field
to document `test` of collection `connection_tests`; and a successful check
has actually written the server timestamp into the store — it is never a
pure read. -/
theorem test_connection_writes_before_reading (b : FsBehavior) (s : FsState) :
    ((test_connection b s).2.2).head? =
      some (StoreOp.setDoc "connection_tests" "test" true) ∧
    ((test_connection b s).1 = true →
      (test_connection b s).2.1.test_doc_timestamp = some s.clock) := by
  rw [test_connection]
  cases hs : b.set_raises <;> cases hg : b.get_raises <;> simp

/-- Claim C10 witness: the theorem applied to a healthy store at clock 5. -/
theorem test_connection_writes_before_reading_witness :
    ((test_connection ⟨false, false⟩ ⟨none, 5⟩).2.2).head? =
      some (StoreOp.setDoc "connection_tests" "test" true) ∧
    (test_connection ⟨false, false⟩ ⟨none, 5⟩).2.1.test_doc_timestamp = some 5 :=
  ⟨(test_connection_writes_before_reading ⟨false, false⟩ ⟨none, 5⟩).1,
   (test_connection_writes_before_reading ⟨false, false⟩ ⟨none, 5⟩).2 rfl⟩
